import Mathlib

/-!
Verification of the OmniComni media-pipeline core.

This file gives a shallow embedding of the pipeline-orchestration code
(`merge_scenes.py`, `concat_scenes.py`, `generate_videos.py`,
`pipeline_manager.py`, `src/core/ffmpeg_service.py`, `src/core/models.py`,
`src/core/exceptions.py`) and proves the specification's claims about it.

Conventions:
- text is modelled as `List Char` (Python `str`);
- media durations are modelled as rationals `ℚ` (the code manipulates
  probed duration numbers arithmetically; `ℚ` captures that arithmetic
  exactly);
- Python exceptions are modelled by an explicit error type returned
  through `Except`;
- external effects (the probe results, the existence of files on disk,
  the success of a collaborator call) are passed in explicitly as data,
  so every definition is executable.
-/

namespace OmniComni

/-! ## Basic character/string helpers (Python `str` operations) -/

/-- Python whitespace test (the characters matched by `\s` for the
regexes used in the repository, and stripped by `str.strip()`). -/
def isWs (c : Char) : Bool :=
  c = ' ' || c = '\t' || c = '\n' || c = '\r' || c = '\x0b' || c = '\x0c'

/-- Python `str.strip()`: drop whitespace from both ends. -/
def pyStrip (s : List Char) : List Char :=
  ((s.dropWhile isWs).reverse.dropWhile isWs).reverse

/-- Parse a run of decimal digit characters as a natural number
(Python `int(...)` on a digit string). -/
def natOfDigits (s : List Char) : ℕ :=
  s.foldl (fun acc c => acc * 10 + (c.toNat - '0'.toNat)) 0

/-- Left brace character (written via its code point). -/
def lbrace : Char := Char.ofNat 123

/-- Right brace character (written via its code point). -/
def rbrace : Char := Char.ofNat 125

/-! ## Python exceptions (`src/core/exceptions.py` and builtins) -/

/-- The exception values that the embedded code can raise.
`llmGenerationError`, `validationError` and `configurationError` come from
`src/core/exceptions.py`; the rest are Python builtins used by the code. -/
inductive PyExc where
  | runtimeError (msg : List Char)
  | valueError (msg : List Char)
  | jsonDecodeError
  | fileNotFoundError (msg : List Char)
  | llmGenerationError (msg : List Char)
  | validationError (msg : List Char)
  | configurationError (msg : List Char)
deriving DecidableEq, Repr

/-- Whether an `Except` result is a success. -/
def isOkE {ε α : Type} : Except ε α → Bool
  | Except.ok _ => true
  | Except.error _ => false

/-- Whether a result raised `ConfigurationError`. -/
def raisesConfigurationError {α : Type} : Except PyExc α → Bool
  | Except.error (PyExc.configurationError _) => true
  | _ => false

/-- Whether a result raised `LLMGenerationError`. -/
def raisesLLMGenerationError {α : Type} : Except PyExc α → Bool
  | Except.error (PyExc.llmGenerationError _) => true
  | _ => false

/-- Whether a result raised `RuntimeError`. -/
def raisesRuntimeError {α : Type} : Except PyExc α → Bool
  | Except.error (PyExc.runtimeError _) => true
  | _ => false

/-! ## FFmpegService construction (`src/core/ffmpeg_service.py`, lines 37-71)

The constructor resolves the `ffmpeg` and `ffprobe` binaries with
`shutil.which` and raises `ConfigurationError` when either is missing.
The system path is modelled as a resolution function. -/

/-- The system-path environment: `shutil.which` resolves a binary name
to its path, or to `none` when the binary is not on the path. -/
structure SystemPath where
  which : List Char → Option (List Char)

/-- The constructed media gateway: it holds the resolved binary paths.
A value of this type exists only after a successful construction, so
every operation that takes an `FFmpegService` argument (probe, extract,
merge) can run only after the construction-time check has passed. -/
structure FFmpegService where
  ffmpeg_path : List Char
  ffprobe_path : List Char
deriving DecidableEq, Repr

/-- `FFmpegService.__init__`: check `ffmpeg`, then `ffprobe`, raising
`ConfigurationError` for whichever is missing (ffmpeg checked first). -/
def FFmpegService.construct (env : SystemPath) : Except PyExc FFmpegService :=
  match env.which "ffmpeg".data with
  | none => Except.error (PyExc.configurationError "FFmpeg binary not found in PATH.".data)
  | some fp =>
    match env.which "ffprobe".data with
    | none => Except.error (PyExc.configurationError "FFprobe binary not found in PATH.".data)
    | some pp => Except.ok { ffmpeg_path := fp, ffprobe_path := pp }

/-! ## Audio/video merge (`merge_scenes.py`, lines 85-210)

`merge_audio_video_with_loop` probes both durations, computes
`n_loops = ceil(audio_dur / video_dur)`, passes `n_loops - 1` to
`-stream_loop` (the first playthrough is implicit), and trims with
`-t audio_dur`.  We embed the command that the function constructs. -/

/-- The loop count `n_loops = math.ceil(audio_dur / video_dur)`
(`merge_scenes.py`, line 152). -/
def n_loops (video_dur audio_dur : ℚ) : ℤ := ⌈audio_dur / video_dur⌉

/-- The relevant arguments of the ffmpeg command built by
`merge_audio_video_with_loop` (lines 167-194). -/
structure MergeCmd where
  /-- value passed to `-stream_loop` (extra repeats of the video input) -/
  stream_loop_count : ℤ
  /-- value passed to `-t` (output trim duration) -/
  trim_duration : ℚ
  /-- `-map 0:v:0`: video taken from input index 0 -/
  map_video_input : ℕ
  /-- `-map 1:a:0`: audio taken from input index 1 -/
  map_audio_input : ℕ
  /-- `-shortest` flag present -/
  shortest_flag : Bool
deriving DecidableEq, Repr

/-- `merge_audio_video_with_loop`, as a function of the two probed
durations.  `get_duration` (lines 58-82) raises when the probed video
duration is not positive; the audio duration is read from `ffprobe`
output without a positivity check (lines 133-144). -/
def merge_audio_video_with_loop (video_dur audio_dur : ℚ) : Except PyExc MergeCmd :=
  if video_dur ≤ 0 then
    Except.error (PyExc.runtimeError "Invalid duration".data)
  else
    Except.ok
      { stream_loop_count := n_loops video_dur audio_dur - 1
        trim_duration := audio_dur
        map_video_input := 0
        map_audio_input := 1
        shortest_flag := true }

/-! ## Scene concatenation (`concat_scenes.py`, lines 120-293)

`concatenate_videos` raises on an empty clip list, collects every clip
that lacks an audio stream before raising, sums the probed durations to
get the timeline length, and builds fade-in/fade-out filters inside that
timeline.  We embed the filter-graph parameters it computes. -/

/-- `FADE_IN_DURATION` (`concat_scenes.py`, line 42). -/
def fade_in_duration_const : ℚ := 1

/-- `FADE_OUT_DURATION` (`concat_scenes.py`, line 43). -/
def fade_out_duration_const : ℚ := 1

/-- An input clip as the concatenator observes it: its filename, whether
`has_audio_stream` reports an audio stream, and its probed duration. -/
structure Clip where
  name : List Char
  has_audio : Bool
  duration : ℚ
deriving DecidableEq, Repr

/-- The failure modes of `concatenate_videos`: `ValueError` for an empty
clip list (line 164), and the `RuntimeError` raised from the full
collected `missing_audio` list (lines 168-179) — the error is raised
only after every clip has been checked, and it is built from the list of
all offending clips. -/
inductive ConcatError where
  | emptyClipList
  | missingAudio (names : List (List Char))
deriving DecidableEq, Repr

/-- The filter-graph/timeline parameters computed by
`concatenate_videos` (lines 200-238). -/
structure ConcatPlan where
  n_clips : ℕ
  /-- `total_duration`: sum of the probed durations of all clips -/
  total_duration : ℚ
  /-- `fade=t=in:st=0` -/
  fade_in_start : ℚ
  /-- `fade=t=in:d=FADE_IN_DURATION` -/
  fade_in_length : ℚ
  /-- `fade=t=out:st=fade_out_start` with `fade_out_start = total_duration - FADE_OUT_DURATION` -/
  fade_out_start : ℚ
  /-- `fade=t=out:d=FADE_OUT_DURATION` -/
  fade_out_length : ℚ
deriving DecidableEq, Repr

/-- `concatenate_videos`: empty-list check, full missing-audio pre-flight
pass, then the timeline/fade computation.  An error result means the
function raised before any ffmpeg invocation, so no output is written. -/
def concatenate_videos (clips : List Clip) : Except ConcatError ConcatPlan :=
  if clips.isEmpty then
    Except.error ConcatError.emptyClipList
  else
    let missing_audio := (clips.filter (fun c => ! c.has_audio)).map Clip.name
    if ! missing_audio.isEmpty then
      Except.error (ConcatError.missingAudio missing_audio)
    else
      let total_duration := (clips.map Clip.duration).sum
      Except.ok
        { n_clips := clips.length
          total_duration := total_duration
          fade_in_start := 0
          fade_in_length := fade_in_duration_const
          fade_out_start := total_duration - fade_out_duration_const
          fade_out_length := fade_out_duration_const }

/-! ## Scene-id extraction and numeric ordering
(`generate_videos.py` lines 67-104, `concat_scenes.py` lines 61-113,
`merge_scenes.py` lines 213-216)

`generate_videos.py` uses `re.search(r'scene_(\d+)', filename)`;
`concat_scenes.py` and `merge_scenes.py` use
`re.search(r'scene[_-]?(\d+)', filename, re.IGNORECASE)`.
`re.search` tries each start position left to right and, at the first
position where the whole pattern matches, captures the maximal digit
run.  Both scanners are embedded below. -/

/-- Case-insensitive character comparison (the `re.IGNORECASE` flag). -/
def charEqCI (a b : Char) : Bool := a.toLower = b.toLower

/-- Match a literal at the head of the input under a character
comparison; return the rest of the input on success. -/
def matchLit (eq : Char → Char → Bool) : List Char → List Char → Option (List Char)
  | [], rest => some rest
  | _ :: _, [] => none
  | p :: ps, c :: cs => if eq p c then matchLit eq ps cs else none

/-- Try the pattern `scene[_-]?(\d+)` (case-insensitive) at the current
position only; return the captured number on success.  The optional
separator is consumed when present — if a separator is present but no
digit follows, no-separator backtracking also fails, because `_`/`-` is
not a digit. -/
def matchSceneNumCI (cs : List Char) : Option ℕ :=
  match matchLit charEqCI "scene".data cs with
  | none => none
  | some rest =>
    let rest2 := match rest with
      | c :: t => if c = '_' || c = '-' then t else c :: t
      | [] => []
    match rest2 with
    | c :: _ => if c.isDigit then some (natOfDigits (rest2.takeWhile Char.isDigit)) else none
    | [] => none

/-- `re.search(r'scene[_-]?(\d+)', s, re.IGNORECASE)`: scan start
positions left to right. -/
def searchSceneNumCI : List Char → Option ℕ
  | [] => none
  | c :: rest =>
    match matchSceneNumCI (c :: rest) with
    | some n => some n
    | none => searchSceneNumCI rest

/-- `extract_scene_number` (`concat_scenes.py`, lines 61-77): the
matched number, or `0` as the fallback for files without one. -/
def extract_scene_number (filename : List Char) : ℕ :=
  (searchSceneNumCI filename).getD 0

/-- Try the pattern `scene_(\d+)` (case-sensitive) at the current
position only (`generate_videos.py`). -/
def matchSceneNumCS (cs : List Char) : Option ℕ :=
  match matchLit (fun a b => a = b) "scene_".data cs with
  | none => none
  | some rest =>
    match rest with
    | c :: _ => if c.isDigit then some (natOfDigits (rest.takeWhile Char.isDigit)) else none
    | [] => none

/-- `re.search(r'scene_(\d+)', s)`: scan start positions left to right. -/
def searchSceneNumCS : List Char → Option ℕ
  | [] => none
  | c :: rest =>
    match matchSceneNumCS (c :: rest) with
    | some n => some n
    | none => searchSceneNumCS rest

/-- `extract_scene_id` (`generate_videos.py`, lines 67-78): `Optional[int]`. -/
def extract_scene_id (filename : List Char) : Option ℕ :=
  searchSceneNumCS filename

/-- Dictionary order on filenames (Python string `<`), used only to
contrast lexical ordering with the numeric ordering the code uses. -/
def lexLt : List Char → List Char → Bool
  | [], [] => false
  | [], _ :: _ => true
  | _ :: _, [] => false
  | a :: as_, b :: bs => if a = b then lexLt as_ bs else a < b

/-- `get_sorted_clips` (`concat_scenes.py`, lines 80-113):
`clips.sort(key=lambda p: extract_scene_number(p.name))` — a stable
comparison sort on the extracted numeric key. -/
def get_sorted_clips (files : List (List Char)) : List (List Char) :=
  List.insertionSort (fun a b => extract_scene_number a ≤ extract_scene_number b) files

/-- The scene ids of `group_images_by_scene` (`generate_videos.py`,
lines 81-104): ids extracted from the filenames, one dictionary key per
id (first appearance kept), iterated as `sorted(scenes.keys())`
(line 205). -/
def sorted_scene_ids (files : List (List Char)) : List ℕ :=
  List.insertionSort (fun a b : ℕ => a ≤ b) (files.filterMap extract_scene_id).dedup

/-! ## Video-generation worker loop (`generate_videos.py`, lines 135-273)

The per-scene loop of `generate_videos_for_topic`: skip when the
checkpoint exists, otherwise invoke the image-to-video collaborator once
and count success or failure.  The filesystem and the collaborator are
modelled as oracles indexed by scene id. -/

/-- The environment the worker observes: whether the output checkpoint
`scene_{id:02d}.mp4` already exists, and whether the collaborator call
for a scene succeeds (rather than raising). -/
structure GenEnv where
  output_exists : ℕ → Bool
  gen_succeeds : ℕ → Bool

/-- The worker's running counters, plus the number of collaborator
invocations made (each non-skipped scene calls `generator.generate_clip`
exactly once). -/
structure GenStats where
  successful : ℕ
  skipped : ℕ
  failed : ℕ
  invocations : ℕ
deriving DecidableEq, Repr

/-- One iteration of the worker loop (lines 205-257): skip-existing
check, then the guarded collaborator call with its catch-all failure
accounting. -/
def gen_process_scene (skip_existing : Bool) (env : GenEnv) (s : GenStats) (scene_id : ℕ) :
    GenStats :=
  if skip_existing && env.output_exists scene_id then
    { s with skipped := s.skipped + 1 }
  else if env.gen_succeeds scene_id then
    { s with successful := s.successful + 1, invocations := s.invocations + 1 }
  else
    { s with failed := s.failed + 1, invocations := s.invocations + 1 }

/-- `generate_videos_for_topic`, restricted to its counting behaviour:
fold the per-scene step over the discovered scene ids in ascending
order.  `total_scenes = len(scenes)` (line 196). -/
def generate_videos_for_topic (skip_existing : Bool) (env : GenEnv) (scene_ids : List ℕ) :
    GenStats :=
  scene_ids.foldl (gen_process_scene skip_existing env)
    { successful := 0, skipped := 0, failed := 0, invocations := 0 }

/-! ## Merge pipeline loop (`merge_scenes.py`, lines 251-370)

The per-scene loop of `run_merge_pipeline`: skip when the merged output
exists, count a missing video as failed, otherwise merge and count
success or failure. -/

/-- The environment the merge pipeline observes per scene id. -/
structure MergeEnv where
  output_exists : ℕ → Bool
  video_exists : ℕ → Bool
  merge_succeeds : ℕ → Bool

/-- One iteration of the merge loop (lines 309-359). -/
def merge_process_scene (skip_existing : Bool) (env : MergeEnv) (s : GenStats) (scene_id : ℕ) :
    GenStats :=
  if skip_existing && env.output_exists scene_id then
    { s with skipped := s.skipped + 1 }
  else if ! env.video_exists scene_id then
    { s with failed := s.failed + 1 }
  else if env.merge_succeeds scene_id then
    { s with successful := s.successful + 1, invocations := s.invocations + 1 }
  else
    { s with failed := s.failed + 1, invocations := s.invocations + 1 }

/-- `run_merge_pipeline`, restricted to its counting behaviour:
fold over the audio files' scene ids in ascending order;
`total_scenes = len(audio_files)` (line 300). -/
def run_merge_pipeline (skip_existing : Bool) (env : MergeEnv) (scene_ids : List ℕ) :
    GenStats :=
  scene_ids.foldl (merge_process_scene skip_existing env)
    { successful := 0, skipped := 0, failed := 0, invocations := 0 }

/-! ## JSON repair (`pipeline_manager.py`, lines 76-128)

`clean_json_output` strips markdown fences, locates JSON arrays with
`re.findall(r'\[[\s\S]*?\]', text)` (each match runs from a `[` to the
nearest following `]`), then repairs separators inside the array(s).
The regex substitutions used all have the shape
`literal1 \s* literal2 -> replacement`; since each `literal2` begins
with a non-whitespace character, the greedy `\s*` never backtracks and
the substitution is a left-to-right scan. -/

/-- Match `literal1 ++ \s* ++ literal2` at the head of the input;
return the rest on success. -/
def matchWsPat (l1 l2 : List Char) (s : List Char) : Option (List Char) :=
  match matchLit (fun a b => a = b) l1 s with
  | none => none
  | some r1 => matchLit (fun a b => a = b) l2 (r1.dropWhile isWs)

/-- `re.sub` for a `literal1 \s* literal2` pattern: left-to-right scan,
non-overlapping matches, replacement not rescanned.  Fuelled; the fuel
`s.length + 1` always suffices because each step consumes at least one
character. -/
def subAllAux (l1 l2 repl : List Char) : ℕ → List Char → List Char
  | 0, s => s
  | _ + 1, [] => []
  | fuel + 1, c :: cs =>
    match matchWsPat l1 l2 (c :: cs) with
    | some rest => repl ++ subAllAux l1 l2 repl fuel rest
    | none => c :: subAllAux l1 l2 repl fuel cs

/-- `re.sub(r'L1\s*L2', repl, s)` for literals `L1`, `L2`. -/
def re_sub_lit_ws_lit (l1 l2 repl s : List Char) : List Char :=
  subAllAux l1 l2 repl (s.length + 1) s

/-- Split the input at the first `]`: the characters before it and the
characters after it. -/
def splitAtFirstRBracket : List Char → Option (List Char × List Char)
  | [] => none
  | c :: cs =>
    if c = ']' then some ([], cs)
    else
      match splitAtFirstRBracket cs with
      | some (pre, post) => some (c :: pre, post)
      | none => none

/-- `re.findall(r'\[[\s\S]*?\]', s)`: at each `[`, the non-greedy match
ends at the nearest following `]`; scanning resumes after the match. -/
def findArraysAux : ℕ → List Char → List (List Char)
  | 0, _ => []
  | _ + 1, [] => []
  | fuel + 1, c :: cs =>
    if c = '[' then
      match splitAtFirstRBracket cs with
      | some (pre, post) => ('[' :: (pre ++ [']'])) :: findArraysAux fuel post
      | none => []
    else findArraysAux fuel cs

/-- All array-shaped substrings of the text. -/
def findArrays (s : List Char) : List (List Char) :=
  findArraysAux (s.length + 1) s

/-! ### A JSON reader (`json.loads`) for the repaired text -/

/-- JSON values.  Numbers keep their source text; string contents keep
their raw (still escaped) characters, which is enough for the inputs
this repository feeds through `json.loads`. -/
inductive JVal where
  | jnull
  | jbool (b : Bool)
  | jnum (text : List Char)
  | jstr (text : List Char)
  | jarr (items : List JVal)
  | jobj (members : List (List Char × JVal))

/-- Characters that can appear in a JSON number token. -/
def isNumChar (c : Char) : Bool :=
  c.isDigit || c = '-' || c = '+' || c = '.' || c = 'e' || c = 'E'

/-- Skip whitespace. -/
def skipWs (s : List Char) : List Char := s.dropWhile isWs

/-- Scan a JSON string body after the opening quote: content and rest
after the closing quote.  A backslash keeps the following character. -/
def scanJString : ℕ → List Char → Option (List Char × List Char)
  | 0, _ => none
  | _ + 1, [] => none
  | fuel + 1, c :: cs =>
    if c = '"' then some ([], cs)
    else if c = '\\' then
      match cs with
      | [] => none
      | e :: cs2 =>
        match scanJString fuel cs2 with
        | some (content, rest) => some (c :: e :: content, rest)
        | none => none
    else
      match scanJString fuel cs with
      | some (content, rest) => some (c :: content, rest)
      | none => none

mutual

/-- Parse one JSON value; return it with the unconsumed rest. -/
def parseJVal : ℕ → List Char → Option (JVal × List Char)
  | 0, _ => none
  | fuel + 1, s =>
    match skipWs s with
    | [] => none
    | c :: cs =>
      if c = lbrace then parseJObjBody fuel cs
      else if c = '[' then parseJArrBody fuel cs
      else if c = '"' then
        match scanJString (cs.length + 1) cs with
        | some (content, rest) => some (JVal.jstr content, rest)
        | none => none
      else if c = 't' then
        match matchLit (fun a b => a = b) "rue".data cs with
        | some rest => some (JVal.jbool true, rest)
        | none => none
      else if c = 'f' then
        match matchLit (fun a b => a = b) "alse".data cs with
        | some rest => some (JVal.jbool false, rest)
        | none => none
      else if c = 'n' then
        match matchLit (fun a b => a = b) "ull".data cs with
        | some rest => some (JVal.jnull, rest)
        | none => none
      else if isNumChar c then
        let tok := (c :: cs).takeWhile isNumChar
        if tok.any Char.isDigit then some (JVal.jnum tok, (c :: cs).dropWhile isNumChar)
        else none
      else none

/-- Parse the items of an array after the opening bracket. -/
def parseJArrBody : ℕ → List Char → Option (JVal × List Char)
  | 0, _ => none
  | fuel + 1, s =>
    match skipWs s with
    | [] => none
    | c :: cs =>
      if c = ']' then some (JVal.jarr [], cs)
      else
        match parseJArrItems fuel (c :: cs) with
        | some (vs, rest) => some (JVal.jarr vs, rest)
        | none => none

/-- Parse `value (, value)* ]`. -/
def parseJArrItems : ℕ → List Char → Option (List JVal × List Char)
  | 0, _ => none
  | fuel + 1, s =>
    match parseJVal fuel s with
    | none => none
    | some (v, rest) =>
      match skipWs rest with
      | [] => none
      | c :: cs =>
        if c = ',' then
          match parseJArrItems fuel cs with
          | some (vs, rest2) => some (v :: vs, rest2)
          | none => none
        else if c = ']' then some ([v], cs)
        else none

/-- Parse the members of an object after the opening brace. -/
def parseJObjBody : ℕ → List Char → Option (JVal × List Char)
  | 0, _ => none
  | fuel + 1, s =>
    match skipWs s with
    | [] => none
    | c :: cs =>
      if c = rbrace then some (JVal.jobj [], cs)
      else
        match parseJObjMembers fuel (c :: cs) with
        | some (ms, rest) => some (JVal.jobj ms, rest)
        | none => none

/-- Parse `"key" : value (, "key" : value)* }`. -/
def parseJObjMembers : ℕ → List Char → Option (List (List Char × JVal) × List Char)
  | 0, _ => none
  | fuel + 1, s =>
    match skipWs s with
    | [] => none
    | c :: cs =>
      if c = '"' then
        match scanJString (cs.length + 1) cs with
        | none => none
        | some (key, rest) =>
          match skipWs rest with
          | [] => none
          | c2 :: cs2 =>
            if c2 = ':' then
              match parseJVal fuel cs2 with
              | none => none
              | some (v, rest2) =>
                match skipWs rest2 with
                | [] => none
                | c3 :: cs3 =>
                  if c3 = ',' then
                    match parseJObjMembers fuel cs3 with
                    | some (ms, rest3) => some ((key, v) :: ms, rest3)
                    | none => none
                  else if c3 = rbrace then some ([(key, v)], cs3)
                  else none
            else none
      else none

end

/-- `json.loads`: parse one value and require only whitespace after it. -/
def json_loads (s : List Char) : Option JVal :=
  match parseJVal (s.length + 1) s with
  | some (v, rest) => if skipWs rest = [] then some v else none
  | none => none

mutual

/-- `json.dumps` with Python's default separators. -/
def json_dumps_val : JVal → List Char
  | JVal.jnull => "null".data
  | JVal.jbool true => "true".data
  | JVal.jbool false => "false".data
  | JVal.jnum t => t
  | JVal.jstr t => '"' :: (t ++ ['"'])
  | JVal.jarr items => '[' :: (json_dumps_items items ++ [']'])
  | JVal.jobj ms => lbrace :: (json_dumps_members ms ++ [rbrace])

/-- Serialise array items, separated by `, `. -/
def json_dumps_items : List JVal → List Char
  | [] => []
  | [v] => json_dumps_val v
  | v :: v2 :: vs => json_dumps_val v ++ (", ".data ++ json_dumps_items (v2 :: vs))

/-- Serialise object members, separated by `, `, keys followed by `: `. -/
def json_dumps_members : List (List Char × JVal) → List Char
  | [] => []
  | [(k, v)] => '"' :: (k ++ ['"'] ++ ": ".data ++ json_dumps_val v)
  | (k, v) :: m2 :: ms =>
    '"' :: (k ++ ['"'] ++ ": ".data ++ json_dumps_val v ++ ", ".data
      ++ json_dumps_members (m2 :: ms))

end

/-- The three separator repairs applied to an array substring
(`pipeline_manager.py`, lines 107-109 and 124-126):
`}\s*{` becomes `}, {`, then `,\s*]` becomes `]`, then `,\s*}`
becomes `}`. -/
def repair_separators (s : List Char) : List Char :=
  let s := re_sub_lit_ws_lit [rbrace] [lbrace] [rbrace, ',', ' ', lbrace] s
  let s := re_sub_lit_ws_lit [','] [']'] [']'] s
  re_sub_lit_ws_lit [','] [rbrace] [rbrace] s

/-- `clean_json_output` (`pipeline_manager.py`, lines 76-128): strip
markdown fences, find the array substrings; raise `ValueError` when
there is none; with several, repair and parse each, merge the parsed
lists and dump the result (raising when nothing parsed); with exactly
one, repair its separators and return it. -/
def clean_json_output (raw_text : List Char) : Except (List Char) (List Char) :=
  let text := re_sub_lit_ws_lit "```json".data [] [] raw_text
  let text := re_sub_lit_ws_lit "```".data [] [] text
  match findArrays text with
  | [] => Except.error "No valid JSON array found in LLM output".data
  | [json_str] => Except.ok (repair_separators json_str)
  | arr1 :: arr2 :: arrs =>
    let all_objects := (arr1 :: arr2 :: arrs).foldl
      (fun acc arr_str =>
        match json_loads (repair_separators arr_str) with
        | some (JVal.jarr items) => acc ++ items
        | _ => acc) []
    if all_objects.isEmpty then Except.error "Could not parse any valid arrays".data
    else Except.ok (json_dumps_val (JVal.jarr all_objects))

/-! ## Storyboard generation with retries
(`pipeline_manager.py`, lines 273-397)

`_generate_storyboard` runs up to `max_retries` attempts.  Each attempt
produces raw LLM text, which is cleaned (`clean_json_output` can raise
`ValueError`), parsed (`json.loads` can raise `json.JSONDecodeError`)
and checked to be a non-empty list (else `ValueError`).  On the last
attempt, a `json.JSONDecodeError` is converted to
`RuntimeError(f"Failed to generate valid JSON after N attempts")`
(line 390), while any other exception is re-raised as it is
(lines 393-397).  The attempts' raw outputs are passed in as a list. -/

/-- The message of the `RuntimeError` raised at line 390. -/
def retries_exhausted_msg (max_retries : ℕ) : List Char :=
  "Failed to generate valid JSON after ".data ++ Nat.toDigits 10 max_retries
    ++ " attempts".data

/-- One attempt's processing: clean, parse, require a non-empty list
(lines 367-372). -/
def storyboard_attempt (raw_output : List Char) : Except PyExc (List JVal) :=
  match clean_json_output raw_output with
  | Except.error msg => Except.error (PyExc.valueError msg)
  | Except.ok cleaned =>
    match json_loads cleaned with
    | none => Except.error PyExc.jsonDecodeError
    | some (JVal.jarr scenes) =>
      if scenes.isEmpty then
        Except.error (PyExc.valueError "LLM output is not a valid scene list".data)
      else Except.ok scenes
    | some _ => Except.error (PyExc.valueError "LLM output is not a valid scene list".data)

/-- The retry loop of `_generate_storyboard` over the list of raw
outputs of the attempts (one list entry per attempt, so the list has
`max_retries` entries; the pipeline always uses `max_retries ≥ 1`,
`MAX_RETRIES = 3` by default). -/
def generate_storyboard_attempts (max_retries : ℕ) :
    List (List Char) → Except PyExc (List JVal)
  | [] => Except.error (PyExc.runtimeError (retries_exhausted_msg max_retries))
  | [raw] =>
    match storyboard_attempt raw with
    | Except.ok scenes => Except.ok scenes
    | Except.error PyExc.jsonDecodeError =>
      Except.error (PyExc.runtimeError (retries_exhausted_msg max_retries))
    | Except.error e => Except.error e
  | raw :: raw2 :: rest =>
    match storyboard_attempt raw with
    | Except.ok scenes => Except.ok scenes
    | Except.error _ => generate_storyboard_attempts max_retries (raw2 :: rest)

/-- `_generate_storyboard` with `max_retries` attempts whose raw LLM
outputs are given by `llm_output` (attempt numbers start at 1). -/
def generate_storyboard (max_retries : ℕ) (llm_output : ℕ → List Char) :
    Except PyExc (List JVal) :=
  generate_storyboard_attempts max_retries
    ((List.range max_retries).map (fun i => llm_output (i + 1)))

/-! ## Storyboard validation (`src/core/models.py`)

`SceneModel` and `StoryboardModel` are pydantic models.  Field
constraints (`ge`, `le`, `min_length`, `min_items`, `max_items`) and
the explicit validators (`strip_whitespace`, `validate_visual_fields`,
`validate_audio_text`, `validate_scene_ids`) are embedded as an
`Option`-returning validation: `none` means the candidate is rejected
(pydantic raises a validation error). -/

/-- A raw scene candidate, as decoded from the LLM JSON (visual fields
are optional; `duration` already carries the field default 8 when the
key was absent). -/
structure RawScene where
  scene_id : ℤ
  visual_prompt : Option (List Char)
  visual_subject : Option (List Char)
  visual_action : Option (List Char)
  background_environment : Option (List Char)
  lighting : Option (List Char)
  camera_shot : Option (List Char)
  audio_text : List Char
  duration : ℤ
deriving DecidableEq, Repr

/-- A validated scene (`SceneModel` after all validators ran: the text
fields are stripped, `audio_text` is the stripped narration). -/
structure SceneModel where
  scene_id : ℤ
  visual_prompt : Option (List Char)
  visual_subject : Option (List Char)
  visual_action : Option (List Char)
  background_environment : Option (List Char)
  lighting : Option (List Char)
  camera_shot : Option (List Char)
  audio_text : List Char
  duration : ℤ
deriving DecidableEq, Repr

/-- Python truthiness of an optional string (`None` and `""` are falsy). -/
def truthy (o : Option (List Char)) : Bool :=
  match o with
  | none => false
  | some s => ! s.isEmpty

/-- `validate_visual_fields` (`models.py`, lines 52-72), applied to the
already-stripped `visual_prompt` and `visual_subject`: `true` when the
scene is acceptable, `false` when the validator raises. -/
def validate_visual_fields (vp vs : Option (List Char)) : Bool :=
  if truthy vp && 10 ≤ (pyStrip (vp.getD [])).length then true
  else if truthy vs && 5 ≤ (pyStrip (vs.getD [])).length then true
  else if ! truthy vp && ! truthy vs then false
  else true

/-- `SceneModel` validation: field constraints
(`scene_id ≥ 1`, `visual_prompt` min length 10 when present,
`audio_text` min length 1, `3 ≤ duration ≤ 30`), then the
`strip_whitespace` validator on the six visual fields, then
`validate_visual_fields`, then `validate_audio_text` (reject when the
stripped narration is empty, store the stripped text). -/
def validateScene (r : RawScene) : Option SceneModel :=
  if r.scene_id < 1 then none
  else if (r.visual_prompt.map (fun s => decide (s.length < 10))).getD false then none
  else if r.audio_text.length < 1 then none
  else if r.duration < 3 then none
  else if 30 < r.duration then none
  else
    let vp := r.visual_prompt.map pyStrip
    let vs := r.visual_subject.map pyStrip
    if ! validate_visual_fields vp vs then none
    else
      let stripped_audio := pyStrip r.audio_text
      if stripped_audio.isEmpty then none
      else
        some
          { scene_id := r.scene_id
            visual_prompt := vp
            visual_subject := vs
            visual_action := r.visual_action.map pyStrip
            background_environment := r.background_environment.map pyStrip
            lighting := r.lighting.map pyStrip
            camera_shot := r.camera_shot.map pyStrip
            audio_text := stripped_audio
            duration := r.duration }

/-- Validate each scene in order; reject the whole list when any scene
is rejected. -/
def validateScenes : List RawScene → Option (List SceneModel)
  | [] => some []
  | r :: rs =>
    match validateScene r, validateScenes rs with
    | some s, some ss => some (s :: ss)
    | _, _ => none

/-- A validated storyboard (`StoryboardModel`). -/
structure StoryboardModel where
  topic : List Char
  scenes : List SceneModel
deriving DecidableEq, Repr

/-- Derived property `scene_count` (`models.py`, lines 119-121). -/
def StoryboardModel.scene_count (sb : StoryboardModel) : ℕ := sb.scenes.length

/-- Derived property `total_duration` (`models.py`, lines 114-117). -/
def StoryboardModel.total_duration (sb : StoryboardModel) : ℤ :=
  (sb.scenes.map SceneModel.duration).sum

/-- `validate_llm_output` (`models.py`, lines 148-170):
`StoryboardModel(topic=topic, scenes=raw_scenes)` — the `topic` field
requires min length 1, `scenes` requires between 1 and 10 items, each
item must validate as a `SceneModel`, and `validate_scene_ids` rejects
the list when `len(ids) != len(set(ids))`. -/
def validate_llm_output (topic : List Char) (raw_scenes : List RawScene) :
    Option StoryboardModel :=
  if topic.length < 1 then none
  else if raw_scenes.length < 1 then none
  else if 10 < raw_scenes.length then none
  else
    match validateScenes raw_scenes with
    | none => none
    | some scenes =>
      let ids := scenes.map SceneModel.scene_id
      if ids.dedup.length = ids.length then
        some { topic := topic, scenes := scenes }
      else none

/-- The length of a JSON array literal, when the text parses as one
(used to state that repaired text parses to a 2-element array). -/
def json_array_length (s : List Char) : Option ℕ :=
  match json_loads s with
  | some (JVal.jarr items) => some items.length
  | _ => none

end OmniComni

namespace OmniComni

/-! ## Theorems for the claims -/

/-- Claim C1: for positive probed durations, `merge_audio_video_with_loop`
computes `loops = ceil(audio_dur / video_dur)`, passes `loops - 1` to the
media tool's stream-loop option (so the video plays `loops` times in
total, the first playthrough being implicit), and trims the output to
exactly `audio_dur`; in particular for `video_dur = 3.5` and
`audio_dur = 8.2` the loop count is `3`. -/
theorem merge_loop_count_spec :
    (∀ video_dur audio_dur : ℚ, 0 < video_dur → 0 < audio_dur →
      merge_audio_video_with_loop video_dur audio_dur =
        Except.ok
          { stream_loop_count := n_loops video_dur audio_dur - 1
            trim_duration := audio_dur
            map_video_input := 0
            map_audio_input := 1
            shortest_flag := true })
    ∧ n_loops (7/2) (41/5) = 3 := by
  constructor
  · intro video_dur audio_dur hv _
    unfold merge_audio_video_with_loop
    rw [if_neg (not_le.mpr hv)]
  · unfold n_loops
    norm_num [Int.ceil_eq_iff]

/-- Concrete instance of the C1 theorem at the spec's own numbers
`video_dur = 3.5 = 7/2`, `audio_dur = 8.2 = 41/5`. -/
theorem merge_loop_count_spec_witness :
    0 < (7/2 : ℚ) ∧ 0 < (41/5 : ℚ) ∧
      merge_audio_video_with_loop (7/2) (41/5) =
        Except.ok
          { stream_loop_count := n_loops (7/2) (41/5) - 1
            trim_duration := 41/5
            map_video_input := 0
            map_audio_input := 1
            shortest_flag := true } :=
  ⟨by norm_num, by norm_num,
    merge_loop_count_spec.1 (7/2) (41/5) (by norm_num) (by norm_num)⟩

/-- Claim C4: `concatenate_videos` fails on an empty clip list; with one
or more clips lacking an audio stream it checks every clip and its error
carries all offending clips at once; an error result means no output was
written. -/
theorem concatenate_videos_failure_modes :
    concatenate_videos [] = Except.error ConcatError.emptyClipList
    ∧ (∀ (clips : List Clip) (c : Clip), c ∈ clips → c.has_audio = false →
        concatenate_videos clips =
          Except.error (ConcatError.missingAudio
            ((clips.filter (fun d => ! d.has_audio)).map Clip.name))
        ∧ ∀ d ∈ clips, d.has_audio = false →
            d.name ∈ (clips.filter (fun d2 => ! d2.has_audio)).map Clip.name) := by
  refine ⟨rfl, ?_⟩
  intro clips c hc hca
  have hmem : c ∈ clips.filter (fun d => ! d.has_audio) := by
    simp [List.mem_filter, hc, hca]
  have hne : clips ≠ [] := by
    rintro rfl
    cases hc
  constructor
  · have hmemname : c.name ∈ (clips.filter (fun d => ! d.has_audio)).map Clip.name :=
      List.mem_map.mpr ⟨c, hmem, rfl⟩
    have hnn : (clips.filter (fun d => ! d.has_audio)).map Clip.name ≠ [] :=
      List.ne_nil_of_mem hmemname
    simp only [concatenate_videos]
    rw [if_neg (by simpa [List.isEmpty_iff] using hne)]
    rw [if_pos (by simpa [List.isEmpty_iff] using hnn)]
  · intro d hd hda
    exact List.mem_map.mpr ⟨d, by simp [List.mem_filter, hd, hda], rfl⟩

/-- Concrete instance of the C4 theorem: one silent clip among two. -/
theorem concatenate_videos_failure_modes_witness :
    concatenate_videos
        [{ name := "scene_01_final.mp4".data, has_audio := true, duration := 4 },
         { name := "scene_02_final.mp4".data, has_audio := false, duration := 5 }] =
      Except.error (ConcatError.missingAudio ["scene_02_final.mp4".data]) :=
  (concatenate_videos_failure_modes.2
    [{ name := "scene_01_final.mp4".data, has_audio := true, duration := 4 },
     { name := "scene_02_final.mp4".data, has_audio := false, duration := 5 }]
    { name := "scene_02_final.mp4".data, has_audio := false, duration := 5 }
    (by simp) rfl).1

/-- Claim C5: for every non-empty clip list (with uniform audio
topology, i.e. past the pre-flight check), the timeline length is the
sum of the probed clip durations, the fade-in starts at `0` with the
fixed fade duration, and the fade-out starts at
`total - fade_out_duration` and ends exactly at the total, so no time is
appended beyond the sum of the clip durations. -/
theorem concatenate_videos_duration_and_fades :
    ∀ clips : List Clip, clips ≠ [] → (∀ c ∈ clips, c.has_audio = true) →
      concatenate_videos clips =
        Except.ok
          { n_clips := clips.length
            total_duration := (clips.map Clip.duration).sum
            fade_in_start := 0
            fade_in_length := fade_in_duration_const
            fade_out_start := (clips.map Clip.duration).sum - fade_out_duration_const
            fade_out_length := fade_out_duration_const }
      ∧ ((clips.map Clip.duration).sum - fade_out_duration_const) + fade_out_duration_const
          = (clips.map Clip.duration).sum := by
  intro clips hne hall
  have hfilter : clips.filter (fun d => ! d.has_audio) = [] := by
    rw [List.filter_eq_nil_iff]
    intro a ha
    simp [hall a ha]
  constructor
  · unfold concatenate_videos
    rw [if_neg (by simpa [List.isEmpty_iff] using hne)]
    rw [if_neg (by simp [hfilter])]
  · ring

/-- Concrete instance of the C5 theorem: two clips of durations 4 and 5. -/
theorem concatenate_videos_duration_and_fades_witness :
    concatenate_videos
        [{ name := "scene_01_final.mp4".data, has_audio := true, duration := 4 },
         { name := "scene_02_final.mp4".data, has_audio := true, duration := 5 }] =
      Except.ok
        { n_clips := 2
          total_duration := 9
          fade_in_start := 0
          fade_in_length := 1
          fade_out_start := 8
          fade_out_length := 1 } := by
  have h := (concatenate_videos_duration_and_fades
    [{ name := "scene_01_final.mp4".data, has_audio := true, duration := 4 },
     { name := "scene_02_final.mp4".data, has_audio := true, duration := 5 }]
    (by simp) (by intro c hc; simp at hc; rcases hc with rfl | rfl <;> rfl)).1
  rw [h]
  norm_num [fade_in_duration_const, fade_out_duration_const]

/-- Claim C9: constructing the media gateway raises `ConfigurationError`
exactly when `ffmpeg` or `ffprobe` is not resolvable on the system path;
construction succeeds exactly when both resolve — so no other error can
come out of the constructor, and every gateway operation (which takes
the constructed `FFmpegService` as an argument) can run only after this
check has passed. -/
theorem ffmpeg_construct_configuration_error :
    ∀ env : SystemPath,
      (raisesConfigurationError (FFmpegService.construct env) = true ↔
        (env.which "ffmpeg".data = none ∨ env.which "ffprobe".data = none))
      ∧ (isOkE (FFmpegService.construct env) = true ↔
        (env.which "ffmpeg".data ≠ none ∧ env.which "ffprobe".data ≠ none)) := by
  intro env
  unfold FFmpegService.construct
  cases hm : env.which "ffmpeg".data with
  | none => simp [raisesConfigurationError, isOkE, hm]
  | some fp =>
    cases hp : env.which "ffprobe".data with
    | none => simp [raisesConfigurationError, isOkE, hp]
    | some pp => simp [raisesConfigurationError, isOkE]

/-- Concrete instance of the C9 theorem: an empty path raises
`ConfigurationError`, a path with both binaries constructs the gateway. -/
theorem ffmpeg_construct_configuration_error_witness :
    raisesConfigurationError
        (FFmpegService.construct { which := fun _ => none }) = true
    ∧ isOkE (FFmpegService.construct { which := fun s => some s }) = true :=
  ⟨(ffmpeg_construct_configuration_error { which := fun _ => none }).1.mpr (Or.inl rfl),
   (ffmpeg_construct_configuration_error { which := fun s => some s }).2.mpr
     ⟨fun h => Option.noConfusion h, fun h => Option.noConfusion h⟩⟩

/-- Helper: the numeric-key comparison used by `get_sorted_clips` is
total. -/
theorem sceneKeyLe_total :
    ∀ a b : List Char,
      extract_scene_number a ≤ extract_scene_number b
      ∨ extract_scene_number b ≤ extract_scene_number a :=
  fun a b => Nat.le_total (extract_scene_number a) (extract_scene_number b)

/-- Claim C6: both the worker and the concatenator order scenes by the
integer extracted with a numeric regex, sorted ascending — never by
lexical filename order.  In particular `scene_10` sorts after `scene_2`
numerically although it sorts before it as a string. -/
theorem scene_ordering_numeric :
    (∀ files : List (List Char),
      (get_sorted_clips files).Pairwise
          (fun a b => extract_scene_number a ≤ extract_scene_number b)
        ∧ (get_sorted_clips files).Perm files)
    ∧ (∀ files : List (List Char),
        (sorted_scene_ids files).Pairwise (fun a b : ℕ => a ≤ b))
    ∧ extract_scene_number "scene_10_final.mp4".data = 10
    ∧ extract_scene_number "scene_2_final.mp4".data = 2
    ∧ get_sorted_clips ["scene_10_final.mp4".data, "scene_2_final.mp4".data]
        = ["scene_2_final.mp4".data, "scene_10_final.mp4".data]
    ∧ lexLt "scene_10_final.mp4".data "scene_2_final.mp4".data = true
    ∧ extract_scene_id "scene_10_var_01.png".data = some 10
    ∧ extract_scene_id "scene_02_var_01.png".data = some 2
    ∧ sorted_scene_ids ["scene_10_var_01.png".data, "scene_02_var_01.png".data]
        = [2, 10] := by
  refine ⟨?_, ?_, by decide, by decide, by decide, by decide, by decide, by decide, by decide⟩
  · intro files
    haveI : IsTotal (List Char)
        (fun a b => extract_scene_number a ≤ extract_scene_number b) :=
      ⟨sceneKeyLe_total⟩
    haveI : IsTrans (List Char)
        (fun a b => extract_scene_number a ≤ extract_scene_number b) :=
      ⟨fun _ _ _ hab hbc => le_trans hab hbc⟩
    exact ⟨List.sorted_insertionSort _ files, List.perm_insertionSort _ files⟩
  · intro files
    exact List.sorted_insertionSort _ _

/-- Claim C7: with `skip_existing = True` and every discovered scene's
output checkpoint already present, the worker performs zero collaborator
invocations and reports every scene as skipped. -/
theorem skip_existing_all_skipped :
    ∀ (env : GenEnv) (scene_ids : List ℕ),
      (∀ i ∈ scene_ids, env.output_exists i = true) →
      generate_videos_for_topic true env scene_ids =
        { successful := 0, skipped := scene_ids.length, failed := 0, invocations := 0 } := by
  have aux : ∀ (env : GenEnv) (ids : List ℕ),
      (∀ i ∈ ids, env.output_exists i = true) → ∀ s : GenStats,
      ids.foldl (gen_process_scene true env) s = { s with skipped := s.skipped + ids.length } := by
    intro env ids
    induction ids with
    | nil => intro _ s; simp
    | cons a t ih =>
      intro h s
      have ha : env.output_exists a = true := h a (List.mem_cons_self a t)
      have ht : ∀ i ∈ t, env.output_exists i = true :=
        fun i hi => h i (List.mem_cons_of_mem a hi)
      simp only [List.foldl_cons]
      rw [show gen_process_scene true env s a = { s with skipped := s.skipped + 1 } by
        simp [gen_process_scene, ha]]
      rw [ih ht]
      simp [Nat.add_assoc, Nat.add_comm 1 t.length]
  intro env scene_ids h
  unfold generate_videos_for_topic
  rw [aux env scene_ids h]
  simp

/-- Concrete instance of the C7 theorem: three scenes, all checkpoints
present. -/
theorem skip_existing_all_skipped_witness :
    generate_videos_for_topic true
        { output_exists := fun _ => true, gen_succeeds := fun _ => true } [1, 2, 3] =
      { successful := 0, skipped := 3, failed := 0, invocations := 0 } :=
  skip_existing_all_skipped
    { output_exists := fun _ => true, gen_succeeds := fun _ => true } [1, 2, 3]
    (fun _ _ => rfl)

/-- Helper for C10: the worker's fold adds exactly one outcome per
scene. -/
theorem gen_foldl_partition (skip : Bool) (env : GenEnv) :
    ∀ (ids : List ℕ) (s : GenStats),
      ((ids.foldl (gen_process_scene skip env) s).successful
        + (ids.foldl (gen_process_scene skip env) s).skipped
        + (ids.foldl (gen_process_scene skip env) s).failed)
      = s.successful + s.skipped + s.failed + ids.length := by
  intro ids
  induction ids with
  | nil => intro s; simp
  | cons a t ih =>
    intro s
    simp only [List.foldl_cons]
    rw [ih (gen_process_scene skip env s a)]
    unfold gen_process_scene
    split_ifs <;> simp <;> omega

/-- Helper for C10: the merge pipeline's fold adds exactly one outcome
per scene. -/
theorem merge_foldl_partition (skip : Bool) (env : MergeEnv) :
    ∀ (ids : List ℕ) (s : GenStats),
      ((ids.foldl (merge_process_scene skip env) s).successful
        + (ids.foldl (merge_process_scene skip env) s).skipped
        + (ids.foldl (merge_process_scene skip env) s).failed)
      = s.successful + s.skipped + s.failed + ids.length := by
  intro ids
  induction ids with
  | nil => intro s; simp
  | cons a t ih =>
    intro s
    simp only [List.foldl_cons]
    rw [ih (merge_process_scene skip env s a)]
    unfold merge_process_scene
    split_ifs <;> simp <;> omega

/-- Claim C10: in every completed run of the video-generation worker and
of the merge pipeline, each discovered scene lands in exactly one of the
three outcome counters, so
`successful + skipped + failed = total_scenes` — whatever the
environment (which per-scene operations exist, succeed or raise). -/
theorem stats_counters_partition :
    ∀ (skip : Bool) (env : GenEnv) (menv : MergeEnv) (scene_ids : List ℕ),
      ((generate_videos_for_topic skip env scene_ids).successful
        + (generate_videos_for_topic skip env scene_ids).skipped
        + (generate_videos_for_topic skip env scene_ids).failed = scene_ids.length)
      ∧ ((run_merge_pipeline skip menv scene_ids).successful
        + (run_merge_pipeline skip menv scene_ids).skipped
        + (run_merge_pipeline skip menv scene_ids).failed = scene_ids.length) := by
  intro skip env menv scene_ids
  constructor
  · unfold generate_videos_for_topic
    rw [gen_foldl_partition]
    simp
  · unfold run_merge_pipeline
    rw [merge_foldl_partition]
    simp

/-- Helper for C8: everything a successfully validated scene guarantees,
and how its fields relate to the raw candidate. -/
theorem validateScene_some {r : RawScene} {s : SceneModel}
    (h : validateScene r = some s) :
    s.scene_id = r.scene_id ∧ 1 ≤ s.scene_id
    ∧ s.duration = r.duration ∧ 3 ≤ s.duration ∧ s.duration ≤ 30
    ∧ s.audio_text = pyStrip r.audio_text ∧ s.audio_text ≠ [] := by
  simp only [validateScene] at h
  split_ifs at h with h1 h2 h3 h4 h5 h6 h7
  injection h with h
  subst h
  dsimp only
  refine ⟨rfl, by omega, rfl, by omega, by omega, rfl, ?_⟩
  simpa [List.isEmpty_iff] using h7

/-- Helper for C8: a raw scene violating one of the claimed bounds is
rejected by scene validation. -/
theorem validateScene_violation {r : RawScene}
    (hv : r.scene_id < 1 ∨ r.duration < 3 ∨ 30 < r.duration
      ∨ pyStrip r.audio_text = []) :
    validateScene r = none := by
  cases h : validateScene r with
  | none => rfl
  | some s =>
    obtain ⟨hsid, hsid1, hdur, hdur3, hdur30, hat, hatne⟩ := validateScene_some h
    rcases hv with h1 | h1 | h1 | h1
    · omega
    · omega
    · omega
    · exact absurd (hat.trans h1) hatne

/-- Helper for C8: list-level scene validation keeps ids and lengths and
yields only bound-respecting scenes. -/
theorem validateScenes_some {raw : List RawScene} {ss : List SceneModel}
    (h : validateScenes raw = some ss) :
    ss.map SceneModel.scene_id = raw.map RawScene.scene_id
    ∧ ss.length = raw.length
    ∧ ∀ s ∈ ss, 1 ≤ s.scene_id ∧ 3 ≤ s.duration ∧ s.duration ≤ 30
        ∧ s.audio_text ≠ [] := by
  induction raw generalizing ss with
  | nil =>
    simp only [validateScenes] at h
    injection h with h
    subst h
    simp
  | cons r rs ih =>
    simp only [validateScenes] at h
    cases hr : validateScene r with
    | none => rw [hr] at h; cases h
    | some s =>
      rw [hr] at h
      cases hrs : validateScenes rs with
      | none => rw [hrs] at h; cases h
      | some ss2 =>
        rw [hrs] at h
        injection h with h
        subst h
        obtain ⟨hids, hlen, hinv⟩ := ih hrs
        obtain ⟨hsid, hsid1, hdur, hdur3, hdur30, _, hatne⟩ := validateScene_some hr
        refine ⟨by simp [hids, hsid], by simp [hlen], ?_⟩
        intro t ht
        rcases List.mem_cons.mp ht with rfl | ht2
        · exact ⟨hsid1, hdur3, hdur30, hatne⟩
        · exact hinv t ht2

/-- Helper for C8: one rejected scene rejects the whole list. -/
theorem validateScenes_none_of_mem {raw : List RawScene} {r : RawScene}
    (hr : r ∈ raw) (hn : validateScene r = none) :
    validateScenes raw = none := by
  induction raw with
  | nil => cases hr
  | cons a t ih =>
    simp only [validateScenes]
    rcases List.mem_cons.mp hr with rfl | hrt
    · rw [hn]
    · cases ha : validateScene a with
      | none => rfl
      | some s => rw [ih hrt]

/-- Helper for C8: the Python duplicate test `len(ids) != len(set(ids))`
is the complement of `Nodup`. -/
theorem dedup_length_eq_iff {l : List ℤ} :
    l.dedup.length = l.length ↔ l.Nodup := by
  constructor
  · intro h
    have heq : l.dedup = l := (List.dedup_sublist l).eq_of_length h
    rw [← heq]
    exact List.nodup_dedup l
  · intro h
    rw [List.dedup_eq_self.mpr h]

/-- Claim C8: every storyboard that passes validation has
`scene_count = len(scenes)`, between 1 and 10 scenes, pairwise-distinct
scene ids all at least 1, durations within `[3, 30]` and non-empty
narration text; and a candidate violating any of these is rejected
rather than returned. -/
theorem storyboard_validation_invariants :
    (∀ (topic : List Char) (raw : List RawScene) (sb : StoryboardModel),
      validate_llm_output topic raw = some sb →
        sb.scene_count = sb.scenes.length
        ∧ 1 ≤ sb.scenes.length ∧ sb.scenes.length ≤ 10
        ∧ (sb.scenes.map SceneModel.scene_id).Nodup
        ∧ ∀ s ∈ sb.scenes, 1 ≤ s.scene_id ∧ 3 ≤ s.duration ∧ s.duration ≤ 30
            ∧ s.audio_text ≠ [])
    ∧ (∀ (topic : List Char) (raw : List RawScene),
        (raw = [] ∨ 10 < raw.length
          ∨ (∃ r ∈ raw, r.scene_id < 1 ∨ r.duration < 3 ∨ 30 < r.duration
              ∨ pyStrip r.audio_text = [])
          ∨ ¬ (raw.map RawScene.scene_id).Nodup) →
        validate_llm_output topic raw = none) := by
  constructor
  · intro topic raw sb h
    simp only [validate_llm_output] at h
    split_ifs at h with h1 h2 h3
    cases hvs : validateScenes raw with
    | none => rw [hvs] at h; cases h
    | some scenes =>
      rw [hvs] at h
      dsimp only at h
      split_ifs at h with hdl
      injection h with h
      subst h
      obtain ⟨hids, hlen, hinv⟩ := validateScenes_some hvs
      refine ⟨rfl, ?_, ?_, dedup_length_eq_iff.mp hdl, hinv⟩
      · dsimp only
        omega
      · dsimp only
        omega
  · intro topic raw hv
    simp only [validate_llm_output]
    split_ifs with h1 h2 h3
    · rfl
    · rfl
    · rfl
    · rcases hv with rfl | hlen | ⟨r, hr, hrv⟩ | hdup
      · exact absurd (by simp) h2
      · exact absurd hlen h3
      · rw [validateScenes_none_of_mem hr (validateScene_violation hrv)]
      · cases hvs : validateScenes raw with
        | none => rfl
        | some scenes =>
          obtain ⟨hids, _, _⟩ := validateScenes_some hvs
          have hnd : ¬ (scenes.map SceneModel.scene_id).dedup.length
              = (scenes.map SceneModel.scene_id).length := by
            intro heq
            exact hdup (hids ▸ dedup_length_eq_iff.mp heq)
          simp only [hnd, if_false]

/-- A concrete raw scene candidate for the C8 witness. -/
def demo_raw_scene : RawScene :=
  { scene_id := 1
    visual_prompt := some "Ancient Ethiopian highlands, 4k, golden hour lighting".data
    visual_subject := none
    visual_action := none
    background_environment := none
    lighting := none
    camera_shot := none
    audio_text := "Coffee story begins in Ethiopia.".data
    duration := 8 }

/-- The validated form of the C8 witness storyboard. -/
def demo_storyboard : StoryboardModel :=
  { topic := "The history of coffee".data
    scenes :=
      [{ scene_id := 1
         visual_prompt := some "Ancient Ethiopian highlands, 4k, golden hour lighting".data
         visual_subject := none
         visual_action := none
         background_environment := none
         lighting := none
         camera_shot := none
         audio_text := "Coffee story begins in Ethiopia.".data
         duration := 8 }] }

/-- Concrete instance of the C8 theorem on a one-scene storyboard. -/
theorem storyboard_validation_invariants_witness :
    demo_storyboard.scene_count = demo_storyboard.scenes.length
    ∧ 1 ≤ demo_storyboard.scenes.length ∧ demo_storyboard.scenes.length ≤ 10
    ∧ (demo_storyboard.scenes.map SceneModel.scene_id).Nodup
    ∧ ∀ s ∈ demo_storyboard.scenes, 1 ≤ s.scene_id ∧ 3 ≤ s.duration
        ∧ s.duration ≤ 30 ∧ s.audio_text ≠ [] :=
  storyboard_validation_invariants.1 "The history of coffee".data [demo_raw_scene]
    demo_storyboard (by rfl)

/-- Claim C2 counterexample: with the default three attempts all failing
to parse, `_generate_storyboard` raises `RuntimeError`, not
`LLMGenerationError`. -/
theorem storyboard_retry_error_type_cex :
    generate_storyboard_attempts 3 ["[oops]".data, "[oops]".data, "[oops]".data]
      = Except.error (PyExc.runtimeError
          "Failed to generate valid JSON after 3 attempts".data)
    ∧ raisesLLMGenerationError
        (generate_storyboard_attempts 3
          ["[oops]".data, "[oops]".data, "[oops]".data]) = false
    ∧ raisesRuntimeError
        (generate_storyboard_attempts 3
          ["[oops]".data, "[oops]".data, "[oops]".data]) = true :=
  ⟨by rfl, by rfl, by rfl⟩

/-- Claim C2 (amended): when every bounded attempt fails to yield
parseable JSON, the generator raises `RuntimeError` with the
retries-exhausted message — `LLMGenerationError` is defined in
`src/core/exceptions.py` but this code never raises it. -/
theorem storyboard_retry_exhaustion_runtime_error :
    ∀ (max_retries : ℕ) (attempts : List (List Char)), attempts ≠ [] →
      (∀ raw ∈ attempts, storyboard_attempt raw = Except.error PyExc.jsonDecodeError) →
      generate_storyboard_attempts max_retries attempts
        = Except.error (PyExc.runtimeError (retries_exhausted_msg max_retries)) := by
  intro mr attempts
  induction attempts with
  | nil => intro h _; exact absurd rfl h
  | cons a t ih =>
    intro _ hall
    have ha := hall a (List.mem_cons_self a t)
    cases t with
    | nil => simp [generate_storyboard_attempts, ha]
    | cons b t2 =>
      have hrest := ih (by simp) (fun r hr => hall r (List.mem_cons_of_mem a hr))
      simp [generate_storyboard_attempts, ha, hrest]

/-- Concrete instance of the amended C2 theorem at the default retry
budget of three attempts. -/
theorem storyboard_retry_exhaustion_runtime_error_witness :
    generate_storyboard_attempts 3 ["[oops]".data, "[oops]".data, "[oops]".data]
      = Except.error (PyExc.runtimeError (retries_exhausted_msg 3)) :=
  storyboard_retry_exhaustion_runtime_error 3
    ["[oops]".data, "[oops]".data, "[oops]".data] (by simp)
    (by
      intro raw hr
      simp only [List.mem_cons, List.not_mem_nil, or_false] at hr
      rcases hr with rfl | rfl | rfl <;> rfl)

/-- Claim C3 counterexample: on the bare concatenated objects
`{"a":1}{"b":2}` the repair step finds no JSON array and
raises `ValueError` instead of returning a repaired string. -/
theorem clean_json_repair_bare_objects_cex :
    clean_json_output "\x7b\"a\":1\x7d\x7b\"b\":2\x7d".data
      = Except.error "No valid JSON array found in LLM output".data
    ∧ isOkE (clean_json_output "\x7b\"a\":1\x7d\x7b\"b\":2\x7d".data) = false :=
  ⟨by rfl, by rfl⟩

/-- Claim C3 (amended): the `}{ → },{` repair applies inside a
bracketed array — on `[{"a":1}{"b":2}]` the step returns a
repaired string that parses as a JSON array of exactly 2 elements. -/
theorem clean_json_repair_bracketed_objects :
    clean_json_output "[\x7b\"a\":1\x7d\x7b\"b\":2\x7d]".data
      = Except.ok "[\x7b\"a\":1\x7d, \x7b\"b\":2\x7d]".data
    ∧ json_array_length "[\x7b\"a\":1\x7d, \x7b\"b\":2\x7d]".data = some 2 :=
  ⟨by rfl, by rfl⟩

end OmniComni
